import Mathlib

/-!
Shallow embedding of the veeva-connect-hub synchronization workflow.

The embedding covers the two server-side handlers
(`supabase/functions/veeva-authenticate/index.ts` and
`supabase/functions/veeva-sync-data/index.ts`), the client-side
configuration activation handler
(`src/components/VeevaConfigurationSelector.tsx`, `handleSelectConfiguration`),
and the table shapes from the SQL schema.  Network effects are modelled by
passing the upstream system as a function from request parameters to an HTTP
response; the managed datastore is modelled as explicit lists of rows, with
PostgREST upsert modelled as replace-on-conflict keyed by the onConflict
columns.  Timestamps are epoch milliseconds (`Nat`); the source compares ISO
strings, which is order-isomorphic.
-/

namespace VeevaConnectHub

/-- An HTTP response with a parsed JSON body of type `β`.
`fetch` exposes `response.ok`, true exactly when the status is in [200, 300). -/
structure HttpResponse (β : Type) where
  status : Nat
  body : β
deriving DecidableEq, Repr

/-- Model of `response.ok` from the fetch API. -/
def respOk {β : Type} (r : HttpResponse β) : Bool :=
  decide (200 ≤ r.status ∧ r.status < 300)

/-- Model of `authHeader.replace("Bearer ", "")` from both handlers. -/
def stripBearer (s : String) : String :=
  s.replace "Bearer " ""

/-! ## Upstream record shapes

Field names follow the JSON fields the handlers read from the Veeva
responses.  A field that the code may find missing (JS `undefined` or
`null`) is an `Option`; `Option.none` stands for missing or null. -/

/-- One study record as returned by `GET {base}/api/v24.3/objects/study__v`.
The handler reads `id`, `name`, `study_phase__c`, `study_status__c` and keeps
the whole record as the raw payload. -/
structure StudyRecord where
  id : String
  name : String
  study_phase__c : Option String
  study_status__c : Option String
deriving DecidableEq, Repr

/-- Body of the studies response: the handler reads `studiesData.data`
(possibly absent) and, for logging only, `responseStatus`. -/
structure StudiesBody where
  responseStatus : Option String
  data : Option (List StudyRecord)
deriving DecidableEq, Repr

/-- One milestone record as returned by the milestone object endpoints. -/
structure MilestoneRecord where
  milestone_name__c : Option String
  milestone_status__c : Option String
  planned_date__c : Option String
  planned_finish_date__c : Option String
  baseline_finish_date__c : Option String
  actual_finish_date__c : Option String
  completion_percentage__c : Option Int
  assigned_to__c : Option String
  priority__c : Option String
  site__c : Option String
deriving DecidableEq, Repr

/-- Body of a milestone response: the handler reads `milestonesData.data`. -/
structure MilestonesBody where
  data : Option (List MilestoneRecord)
deriving DecidableEq, Repr

/-- The external Veeva system, as consumed by the sync handler.  Each field
models one request shape; arguments are the base URL, the session token sent
verbatim in the Authorization header, and the remaining URL components.
  - `objectPath url sid name` models `GET {url}/api/v24.3/objects/{name}`;
  - `objects url sid` models the diagnostic `GET {url}/api/v24.3/objects`;
  - `objectWhere url sid name studyId` models
    `GET {url}/api/v24.3/objects/{name}` with the where clause equating
    the study__v field to studyId. -/
structure Upstream where
  objectPath : String → String → String → HttpResponse StudiesBody
  objects : String → String → HttpResponse String
  objectWhere : String → String → String → String → HttpResponse MilestonesBody

/-! ## Table rows (from the CREATE TABLE statements in the schema file) -/

/-- A row of `public.veeva_configurations`. -/
structure ConfigRow where
  id : String
  user_id : String
  configuration_name : String
  environment_name : String
  veeva_url : String
  username : String
  is_active : Bool
  created_at : Nat
  last_sync : Option Nat
deriving DecidableEq, Repr

/-- A row of `public.veeva_sessions`. -/
structure SessionRow where
  configuration_id : String
  session_id : String
  expires_at : Nat
  is_active : Bool
  created_at : Nat
deriving DecidableEq, Repr

/-- A row of `public.study_data`. -/
structure StudyRow where
  configuration_id : String
  study_id : String
  study_name : String
  phase : Option String
  status : Option String
  data : StudyRecord
  last_updated : Nat
deriving DecidableEq, Repr

/-- A row of `public.milestone_data` (with the columns added by the
2025-08-01 migration). -/
structure MilestoneRow where
  configuration_id : String
  study_id : String
  site_id : Option String
  milestone_type : String
  title : Option String
  status : Option String
  due_date : Option String
  planned_finish_date : Option String
  baseline_finish_date : Option String
  actual_finish_date : Option String
  progress : Int
  assigned_to : Option String
  priority : String
  data : MilestoneRecord
  last_updated : Nat
deriving DecidableEq, Repr

/-- The managed datastore: the four tables the sync workflow touches. -/
structure Db where
  configurations : List ConfigRow
  sessions : List SessionRow
  study_data : List StudyRow
  milestone_data : List MilestoneRow
deriving DecidableEq, Repr

/-! ## Upsert semantics

PostgREST `upsert(rows, { onConflict })` is INSERT .. ON CONFLICT DO UPDATE:
rows are processed in order; a row whose key already exists replaces the
stored row, otherwise it is appended. -/

/-- Whether some stored row has key `k`. -/
def containsKey {α κ : Type} [DecidableEq κ] (key : α → κ) (table : List α) (k : κ) : Bool :=
  table.any (fun x => decide (key x = k))

/-- Overwrite `x` by `r` when they share a key. -/
def replaceWith {α κ : Type} [DecidableEq κ] (key : α → κ) (r x : α) : α :=
  if key x = key r then r else x

/-- Replace the stored rows sharing the key of `row` by `row`, or append
`row` when its key is absent. -/
def upsertRow {α κ : Type} [DecidableEq κ] (key : α → κ) (table : List α) (row : α) :
    List α :=
  if containsKey key table (key row) then
    table.map (replaceWith key row)
  else
    table ++ [row]

/-- Upsert a batch of rows, in order. -/
def upsertBy {α κ : Type} [DecidableEq κ] (key : α → κ) (table : List α) (rows : List α) :
    List α :=
  rows.foldl (upsertRow key) table

/-- The cumulative effect of a batch of keyed writes on a single stored
row: each row of `rs`, in order, overwrites `x` when it shares the key of
`x`. -/
def applyWrites {α κ : Type} [DecidableEq κ] (key : α → κ) (rs : List α) (x : α) : α :=
  rs.foldl (fun y r => if key y = key r then r else y) x

/-- The table has pairwise distinct keys (no duplicate rows under the
upsert key). -/
def nodupKeys {α κ : Type} [DecidableEq κ] (key : α → κ) (table : List α) : Prop :=
  (table.map key).Nodup

/-- The `onConflict` key of the `study_data` upsert:
`configuration_id, study_id`. -/
def studyKey (r : StudyRow) : String × String :=
  (r.configuration_id, r.study_id)

/-- The `onConflict` key of the `milestone_data` upsert:
`configuration_id, study_id, site_id, title`. -/
def milestoneKey (r : MilestoneRow) : String × String × Option String × Option String :=
  (r.configuration_id, r.study_id, r.site_id, r.title)

/-! ## Transformations (veeva-sync-data/index.ts) -/

/-- JS `v || d` for a string-valued JSON field: missing, null and the empty
string are falsy and give the default. -/
def jsOr (v : Option String) (d : String) : String :=
  match v with
  | none => d
  | some s => if s = "" then d else s

/-- JS `v || d` for an integer-valued JSON field: missing, null and 0 are
falsy and give the default. -/
def jsOrInt (v : Option Int) (d : Int) : Int :=
  match v with
  | none => d
  | some n => if n = 0 then d else n

/-- The `studyInserts` element built from one study record
(veeva-sync-data lines 128-136). -/
def transformStudy (configurationId : String) (now : Nat) (study : StudyRecord) :
    StudyRow :=
  { configuration_id := configurationId
    study_id := study.id
    study_name := study.name
    phase := study.study_phase__c
    status := study.study_status__c
    data := study
    last_updated := now }

/-- The study-level milestone transform (veeva-sync-data lines 173-188).
No `site_id` is set, so the row carries a null site id. -/
def transformStudyMilestone (configurationId studyId : String) (now : Nat)
    (m : MilestoneRecord) : MilestoneRow :=
  { configuration_id := configurationId
    study_id := studyId
    site_id := none
    milestone_type := "study"
    title := m.milestone_name__c
    status := m.milestone_status__c
    due_date := m.planned_date__c
    planned_finish_date := m.planned_finish_date__c
    baseline_finish_date := m.baseline_finish_date__c
    actual_finish_date := m.actual_finish_date__c
    progress := jsOrInt m.completion_percentage__c 0
    assigned_to := m.assigned_to__c
    priority := jsOr m.priority__c "medium"
    data := m
    last_updated := now }

/-- The site-level milestone transform (veeva-sync-data lines 209-225). -/
def transformSiteMilestone (configurationId studyId : String) (now : Nat)
    (m : MilestoneRecord) : MilestoneRow :=
  { configuration_id := configurationId
    study_id := studyId
    site_id := m.site__c
    milestone_type := "site"
    title := m.milestone_name__c
    status := m.milestone_status__c
    due_date := m.planned_date__c
    planned_finish_date := m.planned_finish_date__c
    baseline_finish_date := m.baseline_finish_date__c
    actual_finish_date := m.actual_finish_date__c
    progress := jsOrInt m.completion_percentage__c 0
    assigned_to := m.assigned_to__c
    priority := jsOr m.priority__c "medium"
    data := m
    last_updated := now }

/-- The milestone rows accumulated for one study by the per-study loop
(veeva-sync-data lines 154-229): the study-level fetch and the site-level
fetch each contribute their transformed `data` array when the response is
ok, and nothing otherwise. -/
def fetchMilestonesForStudy (u : Upstream) (veevaUrl sessionId configurationId : String)
    (now : Nat) (study : StudyRecord) : List MilestoneRow :=
  let milestonesResponse := u.objectWhere veevaUrl sessionId "study_milestone__v" study.id
  let studyMilestones :=
    if respOk milestonesResponse then
      (milestonesResponse.body.data.getD []).map
        (transformStudyMilestone configurationId study.id now)
    else []
  let siteMilestonesResponse := u.objectWhere veevaUrl sessionId "site_milestone__v" study.id
  let siteMilestones :=
    if respOk siteMilestonesResponse then
      (siteMilestonesResponse.body.data.getD []).map
        (transformSiteMilestone configurationId study.id now)
    else []
  studyMilestones ++ siteMilestones

/-! ## The sync handler (veeva-sync-data/index.ts) -/

/-- The thrown error messages of the sync handler, as an inductive.  Each
constructor corresponds to one `throw new Error(..)` site. -/
inductive SyncError where
  | authorizationHeaderRequired
  | invalidUserToken
  | configurationNotFound
  | noActiveSessionFound
  | failedToFetchStudies (status : Nat)
deriving DecidableEq, Repr

/-- The 200 response body of the sync handler. -/
structure SyncSuccess where
  studiesCount : Nat
  milestonesCount : Nat
  message : String
deriving DecidableEq, Repr

/-- The session query (veeva-sync-data lines 56-63) ends with
`order(created_at, descending).limit(1)`: the retained row is the first
listed row of maximal `created_at`. -/
def latestByCreatedAt : List SessionRow → Option SessionRow
  | [] => none
  | s :: rest =>
    match latestByCreatedAt rest with
    | none => some s
    | some t => if t.created_at > s.created_at then some t else some s

/-- The filter of the session query (veeva-sync-data lines 56-63):
`eq(configuration_id, cid)`, `eq(is_active, true)`,
`gte(expires_at, now)`. -/
def sessionFilter (configurationId : String) (now : Nat) (s : SessionRow) : Bool :=
  s.configuration_id == configurationId && s.is_active && decide (now ≤ s.expires_at)

/-- The whole sync handler as a pure function.  `getUser` stands for
`supabaseClient.auth.getUser`, resolving a bearer token to a user id; the
service-role client bypasses row-level security, so table access is
unscoped.  Store writes cannot fail in the model (upsert errors are logged
and ignored by the source). -/
def syncData (configurationId : String) (authHeader : Option String)
    (getUser : String → Option String) (u : Upstream) (db : Db) (now : Nat) :
    Except SyncError SyncSuccess × Db :=
  match authHeader with
  | none => (.error .authorizationHeaderRequired, db)
  | some header =>
    match getUser (stripBearer header) with
    | none => (.error .invalidUserToken, db)
    | some userId =>
      match db.configurations.filter
          (fun c => c.id == configurationId && c.user_id == userId) with
      | [config] =>
        match latestByCreatedAt (db.sessions.filter (sessionFilter configurationId now)) with
        | none => (.error .noActiveSessionFound, db)
        | some session =>
          let studiesResponse := u.objectPath config.veeva_url session.session_id "study__v"
          if respOk studiesResponse then
            let studiesData := studiesResponse.body
            let studyInserts :=
              (studiesData.data.getD []).map (transformStudy configurationId now)
            let db1 :=
              if studyInserts.length > 0 then
                { db with study_data := upsertBy studyKey db.study_data studyInserts }
              else db
            let milestoneInserts :=
              (studiesData.data.getD []).flatMap
                (fetchMilestonesForStudy u config.veeva_url session.session_id
                  configurationId now)
            let db2 :=
              if milestoneInserts.length > 0 then
                { db1 with
                  milestone_data := upsertBy milestoneKey db1.milestone_data milestoneInserts }
              else db1
            let db3 :=
              { db2 with
                configurations := db2.configurations.map
                  (fun c => if c.id == configurationId then { c with last_sync := some now }
                            else c) }
            (.ok { studiesCount := studyInserts.length
                   milestonesCount := milestoneInserts.length
                   message := "Data synchronization completed successfully" }, db3)
          else
            -- Diagnostic probe of the generic objects listing (lines 96-114):
            -- the result is only logged, never used.
            let _diag := u.objects config.veeva_url session.session_id
            (.error (.failedToFetchStudies studiesResponse.status), db)
      | _ => (.error .configurationNotFound, db)

/-! ## The authenticate handler (veeva-authenticate/index.ts) -/

/-- The JSON request body of the authenticate handler. -/
structure AuthBody where
  veevaUrl : String
  username : String
  password : String
deriving DecidableEq, Repr

/-- Body of the upstream credential-exchange response: the handler only
reads `authData.sessionId`. -/
structure AuthRespBody where
  sessionId : Option String
deriving DecidableEq, Repr

/-- A record of one outbound credential POST: target URL and the form
fields sent. -/
structure UpstreamCall where
  url : String
  username : String
  password : String
deriving DecidableEq, Repr

/-- The thrown error messages of the authenticate handler.  The
failed-to-store-session throw cannot fire in the model because store
writes are modelled as succeeding. -/
inductive AuthError where
  | veevaAuthenticationFailed (status : Nat)
  | noSessionIdReceived
  | authorizationHeaderRequired
  | invalidUserToken
  | configurationNotFound
deriving DecidableEq, Repr

/-- The 200 response body of the authenticate handler. -/
structure AuthSuccess where
  sessionId : String
  expiresAt : Nat
  message : String
deriving DecidableEq, Repr

/-- 8 hours in milliseconds: `expiresAt.setHours(getHours() + 8)`. -/
def eightHoursMs : Nat := 8 * 60 * 60 * 1000

/-- The configuration lookup filter of the authenticate handler
(lines 59-65): `eq(user_id, uid)`, `eq(veeva_url, url)`,
`eq(username, username)`. -/
def authConfigFilter (userId : String) (body : AuthBody) (c : ConfigRow) : Bool :=
  c.user_id == userId && c.veeva_url == body.veevaUrl && c.username == body.username

/-- The whole authenticate handler as a pure function.  `post url user pw`
stands for the form-encoded `POST {url}` of the credentials; the third
component of the result records every outbound credential POST the handler
performed.  The `.single()` on the configuration query returns a row only
when the filter matches exactly one row, and errors otherwise. -/
def authenticate (body : AuthBody) (authHeader : Option String)
    (getUser : String → Option String)
    (post : String → String → String → HttpResponse AuthRespBody)
    (db : Db) (now : Nat) : Except AuthError AuthSuccess × Db × List UpstreamCall :=
  let authUrl := body.veevaUrl ++ "/api/v1/auth"
  let calls := [{ url := authUrl, username := body.username, password := body.password }]
  let authResponse := post authUrl body.username body.password
  if respOk authResponse then
    match authResponse.body.sessionId with
    | none => (.error .noSessionIdReceived, db, calls)
    | some sid =>
      match authHeader with
      | none => (.error .authorizationHeaderRequired, db, calls)
      | some header =>
        match getUser (stripBearer header) with
        | none => (.error .invalidUserToken, db, calls)
        | some userId =>
          match db.configurations.filter (authConfigFilter userId body) with
          | [config] =>
            let expiresAt := now + eightHoursMs
            let newSession : SessionRow :=
              { configuration_id := config.id
                session_id := sid
                expires_at := expiresAt
                is_active := true
                created_at := now }
            let db1 := { db with sessions := db.sessions ++ [newSession] }
            let db2 :=
              { db1 with
                configurations := db1.configurations.map
                  (fun c => if c.id == config.id then
                      { c with is_active := true, last_sync := some now }
                    else c) }
            (.ok { sessionId := sid
                   expiresAt := expiresAt
                   message := "Successfully authenticated with Veeva CTMS" }, db2, calls)
          | _ => (.error .configurationNotFound, db, calls)
  else
    (.error (.veevaAuthenticationFailed authResponse.status), db, calls)

/-! ## Configuration activation (VeevaConfigurationSelector.tsx) -/

/-- `handleSelectConfiguration`: first `update(is_active := false)` on all
rows with `user_id = userId`, then `update(is_active := true)` on the row
with `id = configurationId`.  The updates run on the client under
row-level security, which restricts both updates to rows owned by the
caller, so the second update effectively also filters on the owner. -/
def selectConfiguration (userId configurationId : String) (db : Db) : Db :=
  let deactivated := db.configurations.map
    (fun c => if c.user_id == userId then { c with is_active := false } else c)
  let activated := deactivated.map
    (fun c => if c.id == configurationId && c.user_id == userId then
        { c with is_active := true }
      else c)
  { db with configurations := activated }

/-- First-order description of one authenticate invocation, for building
operation sequences: `caller` is the user id the bearer token resolves to
(none for a missing or invalid token), and `upstreamStatus` and
`upstreamSessionId` describe the upstream response to the credential
POST. -/
structure AuthCall where
  body : AuthBody
  authHeader : Option String
  caller : Option String
  upstreamStatus : Nat
  upstreamSessionId : Option String
  now : Nat
deriving DecidableEq, Repr

/-- The operations of the program that touch the active flag of
configurations. -/
inductive ConfigOp where
  | select (userId configurationId : String)
  | auth (call : AuthCall)
deriving DecidableEq, Repr

/-- Apply one operation to the store. -/
def applyConfigOp (db : Db) : ConfigOp → Db
  | .select userId configurationId => selectConfiguration userId configurationId db
  | .auth call =>
    (authenticate call.body call.authHeader (fun _ => call.caller)
      (fun _ _ _ => { status := call.upstreamStatus
                      body := { sessionId := call.upstreamSessionId } })
      db call.now).2.1

/-- Apply a sequence of operations, oldest first. -/
def runConfigOps (db : Db) (ops : List ConfigOp) : Db :=
  ops.foldl applyConfigOp db

/-- Number of active configurations owned by `userId`. -/
def activeCountFor (userId : String) (db : Db) : Nat :=
  db.configurations.countP (fun c => c.user_id == userId && c.is_active)

/-- The invariant claimed by the spec: at most one active configuration
per owner. -/
def atMostOneActivePerOwner (db : Db) : Prop :=
  ∀ userId, activeCountFor userId db ≤ 1

/-- The configuration ids are pairwise distinct (`id` is the primary
key). -/
def configIdsNodup (db : Db) : Prop :=
  (db.configurations.map (fun c => c.id)).Nodup

/-! ## Spec-side definitions for refinement statements -/

/-- The candidate object paths the sync handler attempts for study data, in
order.  The handler hardcodes the single candidate `study__v`
(veeva-sync-data line 78). -/
def candidateStudyObjects : List String := ["study__v"]

/-- The Endpoint Resolver as worded by the spec: try an ordered list of
candidate object paths against the base URL with the session token; the
first candidate with a success status wins and its parsed body is returned
together with the winning path name. -/
def resolveStudyEndpointSpec (u : Upstream) (veevaUrl sessionId : String) :
    List String → Option (String × StudiesBody)
  | [] => none
  | name :: rest =>
    let r := u.objectPath veevaUrl sessionId name
    if respOk r then some (name, r.body) else resolveStudyEndpointSpec u veevaUrl sessionId rest

/-- The studies request of the sync handler (line 78-87). -/
def syncStudiesBody (u : Upstream) (config : ConfigRow) (session : SessionRow) :
    HttpResponse StudiesBody :=
  u.objectPath config.veeva_url session.session_id "study__v"

/-- The transformed study batch of one run. -/
def syncStudyInserts (configurationId : String) (now : Nat) (b : StudiesBody) :
    List StudyRow :=
  (b.data.getD []).map (transformStudy configurationId now)

/-- The transformed milestone batch of one run. -/
def syncMilestoneInserts (u : Upstream) (config : ConfigRow) (session : SessionRow)
    (configurationId : String) (now : Nat) (b : StudiesBody) : List MilestoneRow :=
  (b.data.getD []).flatMap
    (fetchMilestonesForStudy u config.veeva_url session.session_id configurationId now)

/-- The store writes of a successful run: conditional study upsert,
conditional milestone upsert, unconditional last-sync touch. -/
def syncFinalDb (configurationId : String) (now : Nat) (db : Db)
    (studyIns : List StudyRow) (mileIns : List MilestoneRow) : Db :=
  let db1 :=
    if studyIns.length > 0 then
      { db with study_data := upsertBy studyKey db.study_data studyIns }
    else db
  let db2 :=
    if mileIns.length > 0 then
      { db1 with milestone_data := upsertBy milestoneKey db1.milestone_data mileIns }
    else db1
  { db2 with
    configurations := db2.configurations.map
      (fun c => if c.id == configurationId then { c with last_sync := some now } else c) }

/-- Spec-side count of transformed milestone records for one study: each of
the two per-study fetches contributes the size of its data array when it
returns a success status, and zero otherwise. -/
def milestoneFetchCount (u : Upstream) (veevaUrl sessionId : String) (s : StudyRecord) :
    Nat :=
  (if respOk (u.objectWhere veevaUrl sessionId "study_milestone__v" s.id) then
    ((u.objectWhere veevaUrl sessionId "study_milestone__v" s.id).body.data.getD []).length
  else 0) +
  (if respOk (u.objectWhere veevaUrl sessionId "site_milestone__v" s.id) then
    ((u.objectWhere veevaUrl sessionId "site_milestone__v" s.id).body.data.getD []).length
  else 0)

/-! ## Concrete sample inputs used by witnesses and counterexamples -/

/-- A sample configuration row. -/
def cfgSample : ConfigRow :=
  { id := "c1", user_id := "u1", configuration_name := "Main", environment_name := "sandbox"
    veeva_url := "https://vault.example", username := "alice", is_active := true
    created_at := 0, last_sync := none }

/-- A sample valid session for `cfgSample`. -/
def sessSample : SessionRow :=
  { configuration_id := "c1", session_id := "tok", expires_at := 1000, is_active := true
    created_at := 10 }

/-- A store holding `cfgSample` and `sessSample`. -/
def dbSample : Db :=
  { configurations := [cfgSample], sessions := [sessSample], study_data := []
    milestone_data := [] }

/-- Sample study records. -/
def studyS1 : StudyRecord :=
  { id := "S1", name := "Study One", study_phase__c := some "Phase 1"
    study_status__c := some "active" }

/-- Second sample study record. -/
def studyS2 : StudyRecord :=
  { id := "S2", name := "Study Two", study_phase__c := none, study_status__c := none }

/-- A sample milestone record with progress 75 and no priority. -/
def mileDbLock : MilestoneRecord :=
  { milestone_name__c := some "Database Lock", milestone_status__c := some "pending"
    planned_date__c := some "2025-09-01", planned_finish_date__c := none
    baseline_finish_date__c := none, actual_finish_date__c := none
    completion_percentage__c := some 75, assigned_to__c := some "bob"
    priority__c := none, site__c := none }

/-- A milestone record whose priority is present but the empty string. -/
def mileEmptyPriority : MilestoneRecord :=
  { milestone_name__c := some "Kickoff", milestone_status__c := some "pending"
    planned_date__c := none, planned_finish_date__c := none
    baseline_finish_date__c := none, actual_finish_date__c := none
    completion_percentage__c := some 10, assigned_to__c := none
    priority__c := some "", site__c := none }

/-- A milestone record with every defaultable field present and non-falsy. -/
def mileFull : MilestoneRecord :=
  { milestone_name__c := some "Enrollment", milestone_status__c := some "done"
    planned_date__c := none, planned_finish_date__c := none
    baseline_finish_date__c := none, actual_finish_date__c := none
    completion_percentage__c := some 40, assigned_to__c := none
    priority__c := some "high", site__c := some "Site9" }

/-- Sample upstream: the study listing returns `studyS1` and `studyS2`;
study-level milestones return one record for S1 and HTTP 500 for S2; site
milestones return an empty array (the scenario of the spec, section 8). -/
def uSample : Upstream :=
  { objectPath := fun _ _ name =>
      if name == "study__v" then
        { status := 200
          body := { responseStatus := some "SUCCESS", data := some [studyS1, studyS2] } }
      else { status := 404, body := { responseStatus := none, data := none } }
    objects := fun _ _ => { status := 200, body := "listing" }
    objectWhere := fun _ _ name studyId =>
      if name == "study_milestone__v" && studyId == "S1" then
        { status := 200, body := { data := some [mileDbLock] } }
      else if name == "study_milestone__v" && studyId == "S2" then
        { status := 500, body := { data := none } }
      else { status := 200, body := { data := some [] } } }

/-- Upstream that answers every request with HTTP 404. -/
def uAllFail : Upstream :=
  { objectPath := fun _ _ _ => { status := 404, body := { responseStatus := none, data := none } }
    objects := fun _ _ => { status := 200, body := "listing" }
    objectWhere := fun _ _ _ _ => { status := 404, body := { data := none } } }

/-- Upstream whose study listing succeeds with no data array. -/
def uEmpty : Upstream :=
  { objectPath := fun _ _ _ => { status := 200, body := { responseStatus := some "SUCCESS", data := none } }
    objects := fun _ _ => { status := 200, body := "listing" }
    objectWhere := fun _ _ _ _ => { status := 200, body := { data := none } } }

/-- A session expiring exactly at time 100. -/
def sessExpiringNow : SessionRow :=
  { configuration_id := "c1", session_id := "tok", expires_at := 100, is_active := true
    created_at := 0 }

/-- A store whose only session expires exactly at time 100. -/
def dbExpiringNow : Db :=
  { configurations := [cfgSample], sessions := [sessExpiringNow], study_data := []
    milestone_data := [] }

/-- Sample authenticate request body. -/
def authBodySample : AuthBody :=
  { veevaUrl := "https://vault.example", username := "alice", password := "pw" }

/-- Upstream credential POST that succeeds with a session id. -/
def postOk : String → String → String → HttpResponse AuthRespBody :=
  fun _ _ _ => { status := 200, body := { sessionId := some "sid9" } }

/-- Two configurations of the same owner sharing URL and username but
with different environment names (the setup form only rejects duplicates
of the full environment, URL, username triple, so this state is
reachable). -/
def cfgDupA : ConfigRow :=
  { id := "a", user_id := "u1", configuration_name := "A", environment_name := "dev"
    veeva_url := "https://vault.example", username := "alice", is_active := false
    created_at := 0, last_sync := none }

/-- The second duplicate configuration. -/
def cfgDupB : ConfigRow :=
  { id := "b", user_id := "u1", configuration_name := "B", environment_name := "prod"
    veeva_url := "https://vault.example", username := "alice", is_active := false
    created_at := 1, last_sync := none }

/-- A store holding the duplicate pair. -/
def dbDup : Db :=
  { configurations := [cfgDupA, cfgDupB], sessions := [], study_data := []
    milestone_data := [] }

/-- Two inactive configurations of one owner with distinct usernames. -/
def cfgSelA : ConfigRow :=
  { id := "a", user_id := "u1", configuration_name := "A", environment_name := "dev"
    veeva_url := "https://vault.example", username := "alice", is_active := false
    created_at := 0, last_sync := none }

/-- The second configuration of the pair, a distinct username. -/
def cfgSelB : ConfigRow :=
  { id := "b", user_id := "u1", configuration_name := "B", environment_name := "prod"
    veeva_url := "https://vault.example", username := "brian", is_active := false
    created_at := 1, last_sync := none }

/-- A store holding the two inactive configurations. -/
def dbSel : Db :=
  { configurations := [cfgSelA, cfgSelB], sessions := [], study_data := []
    milestone_data := [] }

/-- Activate configuration a, then authenticate against configuration b:
the authenticate handler activates b without deactivating a. -/
def opsBreakInvariant : List ConfigOp :=
  [ConfigOp.select "u1" "a",
   ConfigOp.auth
     { body := { veevaUrl := "https://vault.example", username := "brian", password := "pw" }
       authHeader := some "h", caller := some "u1"
       upstreamStatus := 200, upstreamSessionId := some "sid", now := 5 }]

/-! # Lemmas about the upsert semantics -/

section UpsertLemmas

variable {α κ : Type} [DecidableEq κ] (key : α → κ)

theorem key_replaceWith (r x : α) : key (replaceWith key r x) = key x := by
  unfold replaceWith
  split
  · next h => exact h.symm
  · rfl

theorem key_applyWrites (rs : List α) (x : α) :
    key (applyWrites key rs x) = key x := by
  induction rs generalizing x with
  | nil => rfl
  | cons r rest ih =>
    show key (applyWrites key rest (if key x = key r then r else x)) = key x
    rw [ih]
    split
    · next h => exact h.symm
    · rfl

theorem applyWrites_cons (r : α) (rs : List α) (x : α) :
    applyWrites key (r :: rs) x = applyWrites key rs (replaceWith key r x) := rfl

theorem containsKey_iff (t : List α) (k : κ) :
    containsKey key t k = true ↔ ∃ x ∈ t, key x = k := by
  simp [containsKey, List.any_eq_true]

theorem containsKey_map_replaceWith (t : List α) (r : α) (k : κ) :
    containsKey key (t.map (replaceWith key r)) k = containsKey key t k := by
  induction t with
  | nil => rfl
  | cons x xs ih =>
    show (decide (key (replaceWith key r x) = k) || containsKey key (xs.map (replaceWith key r)) k)
        = (decide (key x = k) || containsKey key xs k)
    rw [key_replaceWith key r x, ih]

theorem containsKey_upsertRow_self (t : List α) (r : α) :
    containsKey key (upsertRow key t r) (key r) = true := by
  unfold upsertRow
  split
  · next h =>
    rw [containsKey_map_replaceWith]
    exact h
  · rw [containsKey_iff]
    exact ⟨r, by simp, rfl⟩

theorem containsKey_upsertRow_mono (t : List α) (r : α) (k : κ)
    (h : containsKey key t k = true) :
    containsKey key (upsertRow key t r) k = true := by
  unfold upsertRow
  split
  · rw [containsKey_map_replaceWith]; exact h
  · rw [containsKey_iff] at h ⊢
    obtain ⟨x, hx, hk⟩ := h
    exact ⟨x, by simp [hx], hk⟩

theorem containsKey_upsertBy_mono (rs : List α) (t : List α) (k : κ)
    (h : containsKey key t k = true) :
    containsKey key (upsertBy key t rs) k = true := by
  induction rs generalizing t with
  | nil => exact h
  | cons r rest ih =>
    exact ih (upsertRow key t r) (containsKey_upsertRow_mono key t r k h)

theorem containsKey_upsertBy_of_mem (rs : List α) (t : List α) (r : α) (h : r ∈ rs) :
    containsKey key (upsertBy key t rs) (key r) = true := by
  induction rs generalizing t with
  | nil => cases h
  | cons r0 rest ih =>
    rcases List.mem_cons.mp h with h0 | hmem
    · subst h0
      exact containsKey_upsertBy_mono key rest (upsertRow key t r) (key r)
        (containsKey_upsertRow_self key t r)
    · exact ih (upsertRow key t r0) hmem

theorem upsertBy_append_singleton (t : List α) (rs : List α) (r : α) :
    upsertBy key t (rs ++ [r]) = upsertRow key (upsertBy key t rs) r := by
  simp [upsertBy, List.foldl_append]

theorem applyWrites_append_singleton (rs : List α) (r : α) (x : α) :
    applyWrites key (rs ++ [r]) x = replaceWith key r (applyWrites key rs x) := by
  simp [applyWrites, List.foldl_append, replaceWith]

theorem upsertBy_eq_map_applyWrites (rs : List α) (u : List α)
    (h : ∀ r ∈ rs, containsKey key u (key r) = true) :
    upsertBy key u rs = u.map (applyWrites key rs) := by
  induction rs generalizing u with
  | nil =>
    show u = u.map (fun x => x)
    simp
  | cons r rest ih =>
    show upsertBy key (upsertRow key u r) rest = _
    have hr : containsKey key u (key r) = true := h r (by simp)
    have hstep : upsertRow key u r = u.map (replaceWith key r) := by
      unfold upsertRow
      rw [if_pos hr]
    rw [hstep, ih (u.map (replaceWith key r))
      (fun w hw => by
        rw [containsKey_map_replaceWith]
        exact h w (List.mem_cons_of_mem _ hw)),
      List.map_map]
    rfl

theorem applyWrites_fixpoint (rs : List α) (t : List α) :
    ∀ x ∈ upsertBy key t rs, applyWrites key rs x = x := by
  induction rs using List.reverseRecOn generalizing t with
  | nil => intro x _; rfl
  | append_singleton l a ih =>
    intro x hx
    rw [upsertBy_append_singleton] at hx
    rw [applyWrites_append_singleton]
    unfold upsertRow at hx
    by_cases hc : containsKey key (upsertBy key t l) (key a) = true
    · rw [if_pos hc] at hx
      obtain ⟨y, hy, hxy⟩ := List.mem_map.mp hx
      by_cases hk : key y = key a
      · have hxa : x = a := by
          rw [← hxy]; unfold replaceWith; rw [if_pos hk]
        rw [hxa]
        unfold replaceWith
        split
        · rfl
        · next hcond => exact absurd (key_applyWrites key l a) hcond
      · have hxy2 : x = y := by
          rw [← hxy]; unfold replaceWith; rw [if_neg hk]
        rw [hxy2, ih t y hy]
        unfold replaceWith
        rw [if_neg hk]
    · rw [if_neg hc] at hx
      rcases List.mem_append.mp hx with hmem | hmem
      · have hk : key x ≠ key a := by
          intro hkeq
          exact hc ((containsKey_iff key _ _).mpr ⟨x, hmem, hkeq⟩)
        rw [ih t x hmem]
        unfold replaceWith
        rw [if_neg hk]
      · have hxa : x = a := by simpa using hmem
        rw [hxa]
        unfold replaceWith
        split
        · rfl
        · next hcond => exact absurd (key_applyWrites key l a) hcond

/-- Replaying the same batch of keyed writes onto the table it produced
changes nothing: the upsert is idempotent. -/
theorem upsertBy_idempotent (t : List α) (rs : List α) :
    upsertBy key (upsertBy key t rs) rs = upsertBy key t rs := by
  rw [upsertBy_eq_map_applyWrites key rs (upsertBy key t rs)
    (fun r hr => containsKey_upsertBy_of_mem key rs t r hr)]
  calc (upsertBy key t rs).map (applyWrites key rs)
      = (upsertBy key t rs).map (fun x => x) :=
        List.map_congr_left (applyWrites_fixpoint key rs t)
    _ = upsertBy key t rs := by simp

theorem nodupKeys_upsertRow (t : List α) (r : α) (h : nodupKeys key t) :
    nodupKeys key (upsertRow key t r) := by
  unfold upsertRow
  split
  · next _ =>
    unfold nodupKeys at h ⊢
    rw [List.map_map]
    have hfun : (key ∘ replaceWith key r) = key := by
      funext x
      exact key_replaceWith key r x
    rw [hfun]
    exact h
  · next hc =>
    unfold nodupKeys at h ⊢
    have hnot : key r ∉ t.map key := by
      intro hmem
      obtain ⟨x, hx, hk⟩ := List.mem_map.mp hmem
      exact hc ((containsKey_iff key t (key r)).mpr ⟨x, hx, hk⟩)
    simp only [List.map_append, List.map_cons, List.map_nil]
    rw [List.nodup_append]
    refine ⟨h, List.nodup_singleton _, fun b hb hb2 => ?_⟩
    have hbk : b = key r := by simpa using hb2
    exact hnot (hbk ▸ hb)

theorem nodupKeys_upsertBy (rs : List α) (t : List α) (h : nodupKeys key t) :
    nodupKeys key (upsertBy key t rs) := by
  induction rs generalizing t with
  | nil => exact h
  | cons r rest ih => exact ih (upsertRow key t r) (nodupKeys_upsertRow key t r h)

end UpsertLemmas

/-! # Lemmas about the session resolution -/

theorem latestByCreatedAt_eq_none (l : List SessionRow) :
    latestByCreatedAt l = none ↔ l = [] := by
  cases l with
  | nil => simp [latestByCreatedAt]
  | cons s rest =>
    constructor
    · intro h
      exfalso
      simp only [latestByCreatedAt] at h
      cases hrec : latestByCreatedAt rest with
      | none =>
        simp only [hrec] at h
        exact Option.noConfusion h
      | some t =>
        simp only [hrec] at h
        by_cases hgt : t.created_at > s.created_at
        · rw [if_pos hgt] at h; exact Option.noConfusion h
        · rw [if_neg hgt] at h; exact Option.noConfusion h
    · intro h
      exact absurd h (List.cons_ne_nil s rest)

theorem latestByCreatedAt_mem (l : List SessionRow) (s : SessionRow)
    (h : latestByCreatedAt l = some s) : s ∈ l := by
  induction l with
  | nil => cases h
  | cons x rest ih =>
    simp only [latestByCreatedAt] at h
    cases hrec : latestByCreatedAt rest with
    | none =>
      simp only [hrec] at h
      injection h with h
      exact h ▸ List.mem_cons_self x rest
    | some t =>
      simp only [hrec] at h
      by_cases hgt : t.created_at > x.created_at
      · rw [if_pos hgt] at h
        injection h with h
        exact List.mem_cons_of_mem x (ih (h ▸ hrec))
      · rw [if_neg hgt] at h
        injection h with h
        exact h ▸ List.mem_cons_self x rest

theorem latestByCreatedAt_max (l : List SessionRow) :
    ∀ s : SessionRow, latestByCreatedAt l = some s →
      ∀ t ∈ l, t.created_at ≤ s.created_at := by
  induction l with
  | nil => intro s h; cases h
  | cons x rest ih =>
    intro s h t ht
    simp only [latestByCreatedAt] at h
    cases hrec : latestByCreatedAt rest with
    | none =>
      simp only [hrec] at h
      injection h with h
      have hrest : rest = [] := (latestByCreatedAt_eq_none rest).mp hrec
      rcases List.mem_cons.mp ht with h0 | hmem
      · rw [h0, ← h]
      · rw [hrest] at hmem; cases hmem
    | some m =>
      simp only [hrec] at h
      by_cases hgt : m.created_at > x.created_at
      · rw [if_pos hgt] at h
        injection h with h
        rcases List.mem_cons.mp ht with h0 | hmem
        · rw [h0, ← h]; exact Nat.le_of_lt hgt
        · exact ih s (h ▸ hrec) t hmem
      · rw [if_neg hgt] at h
        injection h with h
        rcases List.mem_cons.mp ht with h0 | hmem
        · rw [h0, ← h]
        · rw [← h]
          exact Nat.le_trans (ih m hrec t hmem) (Nat.le_of_not_lt hgt)

/-! # Path lemmas for the sync handler -/

theorem syncData_success_eq (configurationId header userId : String)
    (getUser : String → Option String) (u : Upstream) (db : Db) (now : Nat)
    (config : ConfigRow) (session : SessionRow)
    (h2 : getUser (stripBearer header) = some userId)
    (h3 : db.configurations.filter
      (fun c => c.id == configurationId && c.user_id == userId) = [config])
    (h4 : latestByCreatedAt (db.sessions.filter (sessionFilter configurationId now))
      = some session)
    (h5 : respOk (syncStudiesBody u config session) = true) :
    syncData configurationId (some header) getUser u db now =
      (Except.ok
        { studiesCount :=
            (syncStudyInserts configurationId now (syncStudiesBody u config session).body).length
          milestonesCount :=
            (syncMilestoneInserts u config session configurationId now
              (syncStudiesBody u config session).body).length
          message := "Data synchronization completed successfully" },
       syncFinalDb configurationId now db
         (syncStudyInserts configurationId now (syncStudiesBody u config session).body)
         (syncMilestoneInserts u config session configurationId now
           (syncStudiesBody u config session).body)) := by
  simp only [syncStudiesBody] at h5
  simp only [syncData, h2, h3, h4, h5, if_true]
  rfl

theorem syncData_endpoint_fail_eq (configurationId header userId : String)
    (getUser : String → Option String) (u : Upstream) (db : Db) (now : Nat)
    (config : ConfigRow) (session : SessionRow)
    (h2 : getUser (stripBearer header) = some userId)
    (h3 : db.configurations.filter
      (fun c => c.id == configurationId && c.user_id == userId) = [config])
    (h4 : latestByCreatedAt (db.sessions.filter (sessionFilter configurationId now))
      = some session)
    (h5 : respOk (syncStudiesBody u config session) = false) :
    syncData configurationId (some header) getUser u db now =
      (Except.error (SyncError.failedToFetchStudies (syncStudiesBody u config session).status),
       db) := by
  simp only [syncStudiesBody] at h5
  simp only [syncData, h2, h3, h4, h5, Bool.false_eq_true, if_false]
  rfl

theorem syncData_no_session_eq (configurationId header userId : String)
    (getUser : String → Option String) (u : Upstream) (db : Db) (now : Nat)
    (config : ConfigRow)
    (h2 : getUser (stripBearer header) = some userId)
    (h3 : db.configurations.filter
      (fun c => c.id == configurationId && c.user_id == userId) = [config])
    (h4 : latestByCreatedAt (db.sessions.filter (sessionFilter configurationId now))
      = none) :
    syncData configurationId (some header) getUser u db now =
      (Except.error SyncError.noActiveSessionFound, db) := by
  simp only [syncData, h2, h3, h4]

theorem length_flatMap_eq_sum {β γ : Type} (l : List β) (f : β → List γ) :
    (l.flatMap f).length = (l.map (fun b => (f b).length)).sum := by
  induction l with
  | nil => rfl
  | cons x xs ih => simp [List.flatMap_cons, ih]

theorem fetchMilestonesForStudy_length (u : Upstream)
    (veevaUrl sessionId configurationId : String) (now : Nat) (s : StudyRecord) :
    (fetchMilestonesForStudy u veevaUrl sessionId configurationId now s).length =
      milestoneFetchCount u veevaUrl sessionId s := by
  unfold fetchMilestonesForStudy milestoneFetchCount
  rw [List.length_append]
  congr 1 <;> (split <;> simp)

theorem syncData_ok_counts (configurationId header userId : String)
    (getUser : String → Option String) (u : Upstream) (db : Db) (now : Nat)
    (config : ConfigRow) (session : SessionRow)
    (h2 : getUser (stripBearer header) = some userId)
    (h3 : db.configurations.filter
      (fun c => c.id == configurationId && c.user_id == userId) = [config])
    (h4 : latestByCreatedAt (db.sessions.filter (sessionFilter configurationId now))
      = some session)
    (h5 : respOk (syncStudiesBody u config session) = true) :
    (syncData configurationId (some header) getUser u db now).1 =
      Except.ok
        { studiesCount := ((syncStudiesBody u config session).body.data.getD []).length
          milestonesCount :=
            (((syncStudiesBody u config session).body.data.getD []).map
              (milestoneFetchCount u config.veeva_url session.session_id)).sum
          message := "Data synchronization completed successfully" } := by
  rw [syncData_success_eq configurationId header userId getUser u db now config session
    h2 h3 h4 h5]
  show Except.ok _ = Except.ok _
  congr 1
  congr 1
  · simp [syncStudyInserts]
  · simp only [syncMilestoneInserts]
    rw [length_flatMap_eq_sum]
    congr 1
    exact List.map_congr_left (fun s _ =>
      fetchMilestonesForStudy_length u config.veeva_url session.session_id
        configurationId now s)

/-! # Claim theorems -/

/-- C7 counterexample: a milestone record whose priority field is present
but equal to the empty string is normalized to "medium" by the transform,
because the source uses the JS or-else operator, so a present value is not
carried through. -/
theorem milestone_priority_empty_counterexample :
    mileEmptyPriority.priority__c = some "" ∧
    (transformStudyMilestone "c1" "S1" 0 mileEmptyPriority).priority = "medium" ∧
    (transformStudyMilestone "c1" "S1" 0 mileEmptyPriority).priority ≠ "" := by
  exact ⟨rfl, rfl, by decide⟩

/-- C7 (amended): for both milestone transforms, an absent progress value
normalizes to 0 and an absent priority value normalizes to "medium"; a
present progress value is carried through, and a present priority value is
carried through unless it is the empty string, which also normalizes to
"medium" (JS falsy coercion). -/
theorem milestone_defaults_normalization (configurationId studyId : String) (now : Nat)
    (m : MilestoneRecord) :
    (m.completion_percentage__c = none →
      (transformStudyMilestone configurationId studyId now m).progress = 0 ∧
      (transformSiteMilestone configurationId studyId now m).progress = 0) ∧
    (∀ n : Int, m.completion_percentage__c = some n →
      (transformStudyMilestone configurationId studyId now m).progress = n ∧
      (transformSiteMilestone configurationId studyId now m).progress = n) ∧
    (m.priority__c = none →
      (transformStudyMilestone configurationId studyId now m).priority = "medium" ∧
      (transformSiteMilestone configurationId studyId now m).priority = "medium") ∧
    (∀ p : String, m.priority__c = some p → p ≠ "" →
      (transformStudyMilestone configurationId studyId now m).priority = p ∧
      (transformSiteMilestone configurationId studyId now m).priority = p) ∧
    (m.priority__c = some "" →
      (transformStudyMilestone configurationId studyId now m).priority = "medium" ∧
      (transformSiteMilestone configurationId studyId now m).priority = "medium") := by
  refine ⟨?_, ?_, ?_, ?_, ?_⟩
  · intro h
    simp [transformStudyMilestone, transformSiteMilestone, jsOrInt, h]
  · intro n h
    by_cases h0 : n = 0 <;>
      simp [transformStudyMilestone, transformSiteMilestone, jsOrInt, h, h0]
  · intro h
    simp [transformStudyMilestone, transformSiteMilestone, jsOr, h]
  · intro p h hp
    simp [transformStudyMilestone, transformSiteMilestone, jsOr, h, hp]
  · intro h
    simp [transformStudyMilestone, transformSiteMilestone, jsOr, h]

/-- C7 witness: the amended theorem applied to concrete records. -/
theorem milestone_defaults_normalization_witness :
    mileDbLock.completion_percentage__c = some 75 ∧ mileDbLock.priority__c = none ∧
    (transformStudyMilestone "c1" "S1" 0 mileDbLock).progress = 75 ∧
    (transformStudyMilestone "c1" "S1" 0 mileDbLock).priority = "medium" ∧
    mileFull.priority__c = some "high" ∧
    (transformSiteMilestone "c1" "S1" 0 mileFull).priority = "high" := by
  refine ⟨rfl, rfl, ?_, ?_, rfl, ?_⟩
  · exact ((milestone_defaults_normalization "c1" "S1" 0 mileDbLock).2.1 75 rfl).1
  · exact ((milestone_defaults_normalization "c1" "S1" 0 mileDbLock).2.2.1 rfl).1
  · exact ((milestone_defaults_normalization "c1" "S1" 0 mileFull).2.2.2.1 "high" rfl
      (by decide)).2

/-- C5: whenever the hard preconditions hold (bearer resolves to a user,
the configuration is found, a usable session exists, the studies fetch
returns a success status), the run returns success with studiesCount equal
to the number of study records in the upstream data array and
milestonesCount equal to the total number of milestone records over the
per-study fetches that returned a success status, including the zero
case. -/
theorem sync_counts_match_transformed (configurationId header userId : String)
    (getUser : String → Option String) (u : Upstream) (db : Db) (now : Nat)
    (config : ConfigRow) (session : SessionRow)
    (h2 : getUser (stripBearer header) = some userId)
    (h3 : db.configurations.filter
      (fun c => c.id == configurationId && c.user_id == userId) = [config])
    (h4 : latestByCreatedAt (db.sessions.filter (sessionFilter configurationId now))
      = some session)
    (h5 : respOk (syncStudiesBody u config session) = true) :
    (syncData configurationId (some header) getUser u db now).1 =
      Except.ok
        { studiesCount := ((syncStudiesBody u config session).body.data.getD []).length
          milestonesCount :=
            (((syncStudiesBody u config session).body.data.getD []).map
              (milestoneFetchCount u config.veeva_url session.session_id)).sum
          message := "Data synchronization completed successfully" } :=
  syncData_ok_counts configurationId header userId getUser u db now config session
    h2 h3 h4 h5

/-- C5 witness: the scenario of spec section 8 (two studies, one milestone,
one milestone fetch failing with HTTP 500) returns success with counts 2
and 1. -/
theorem sync_counts_match_transformed_witness :
    ((fun _ : String => some "u1") (stripBearer "Bearer tok") = some "u1") ∧
    dbSample.configurations.filter (fun c => c.id == "c1" && c.user_id == "u1")
      = [cfgSample] ∧
    latestByCreatedAt (dbSample.sessions.filter (sessionFilter "c1" 100))
      = some sessSample ∧
    respOk (syncStudiesBody uSample cfgSample sessSample) = true ∧
    (syncData "c1" (some "Bearer tok") (fun _ => some "u1") uSample dbSample 100).1 =
      Except.ok
        { studiesCount := 2, milestonesCount := 1
          message := "Data synchronization completed successfully" } := by
  refine ⟨rfl, by decide, by decide, by decide, ?_⟩
  rw [sync_counts_match_transformed "c1" "Bearer tok" "u1" (fun _ => some "u1")
    uSample dbSample 100 cfgSample sessSample rfl (by decide) (by decide) (by decide)]
  rfl

/-- C4: under the hard preconditions, a failed (non-success status)
study-level milestone fetch for a processed study does not abort the run:
the run still returns success, the milestone count is the sum over the
per-study fetches that succeeded, and the failed study-level fetch
contributes zero, leaving only the site-level contribution for that
study. -/
theorem milestone_fetch_failure_tolerated (configurationId header userId : String)
    (getUser : String → Option String) (u : Upstream) (db : Db) (now : Nat)
    (config : ConfigRow) (session : SessionRow)
    (h2 : getUser (stripBearer header) = some userId)
    (h3 : db.configurations.filter
      (fun c => c.id == configurationId && c.user_id == userId) = [config])
    (h4 : latestByCreatedAt (db.sessions.filter (sessionFilter configurationId now))
      = some session)
    (h5 : respOk (syncStudiesBody u config session) = true)
    (j : StudyRecord)
    (hjmem : j ∈ (syncStudiesBody u config session).body.data.getD [])
    (hfail : respOk (u.objectWhere config.veeva_url session.session_id
      "study_milestone__v" j.id) = false) :
    (syncData configurationId (some header) getUser u db now).1 =
      Except.ok
        { studiesCount := ((syncStudiesBody u config session).body.data.getD []).length
          milestonesCount :=
            (((syncStudiesBody u config session).body.data.getD []).map
              (milestoneFetchCount u config.veeva_url session.session_id)).sum
          message := "Data synchronization completed successfully" } ∧
    milestoneFetchCount u config.veeva_url session.session_id j =
      (if respOk (u.objectWhere config.veeva_url session.session_id
          "site_milestone__v" j.id) then
        ((u.objectWhere config.veeva_url session.session_id
          "site_milestone__v" j.id).body.data.getD []).length
      else 0) := by
  refine ⟨syncData_ok_counts configurationId header userId getUser u db now config session
    h2 h3 h4 h5, ?_⟩
  simp [milestoneFetchCount, hfail]

/-- C4 witness: with the HTTP 500 on the study-level milestone fetch of S2,
the run returns success with milestonesCount 1 and the S2 study-level
contribution is zero. -/
theorem milestone_fetch_failure_tolerated_witness :
    ((fun _ : String => some "u1") (stripBearer "Bearer tok") = some "u1") ∧
    dbSample.configurations.filter (fun c => c.id == "c1" && c.user_id == "u1")
      = [cfgSample] ∧
    latestByCreatedAt (dbSample.sessions.filter (sessionFilter "c1" 100))
      = some sessSample ∧
    respOk (syncStudiesBody uSample cfgSample sessSample) = true ∧
    studyS2 ∈ (syncStudiesBody uSample cfgSample sessSample).body.data.getD [] ∧
    respOk (uSample.objectWhere cfgSample.veeva_url sessSample.session_id
      "study_milestone__v" studyS2.id) = false ∧
    (syncData "c1" (some "Bearer tok") (fun _ => some "u1") uSample dbSample 100).1 =
      Except.ok
        { studiesCount := 2, milestonesCount := 1
          message := "Data synchronization completed successfully" } ∧
    milestoneFetchCount uSample cfgSample.veeva_url sessSample.session_id studyS2 = 0 := by
  refine ⟨rfl, by decide, by decide, by decide, by decide, by decide, ?_, ?_⟩
  · rw [(milestone_fetch_failure_tolerated "c1" "Bearer tok" "u1" (fun _ => some "u1")
      uSample dbSample 100 cfgSample sessSample rfl (by decide) (by decide) (by decide)
      studyS2 (by decide) (by decide)).1]
    rfl
  · rw [(milestone_fetch_failure_tolerated "c1" "Bearer tok" "u1" (fun _ => some "u1")
      uSample dbSample 100 cfgSample sessSample rfl (by decide) (by decide) (by decide)
      studyS2 (by decide) (by decide)).2]
    decide

/-- C9: when the studies response parses with a success status but its
data array is absent or empty, the run upserts no Study rows, upserts no
Milestone rows, leaves study and milestone tables untouched, still stamps
the last-sync time on the configuration, and returns success with both
counts zero; moreover the per-study milestone fetches never influence the
outcome (none are performed). -/
theorem empty_studies_data_sync (configurationId header userId : String)
    (getUser : String → Option String) (u : Upstream) (db : Db) (now : Nat)
    (config : ConfigRow) (session : SessionRow)
    (h2 : getUser (stripBearer header) = some userId)
    (h3 : db.configurations.filter
      (fun c => c.id == configurationId && c.user_id == userId) = [config])
    (h4 : latestByCreatedAt (db.sessions.filter (sessionFilter configurationId now))
      = some session)
    (h5 : respOk (syncStudiesBody u config session) = true)
    (hdata : (syncStudiesBody u config session).body.data.getD [] = []) :
    syncData configurationId (some header) getUser u db now =
      (Except.ok { studiesCount := 0, milestonesCount := 0
                   message := "Data synchronization completed successfully" },
       { db with configurations := (db.configurations.map
           (fun c => if c.id == configurationId then { c with last_sync := some now }
                     else c)) }) ∧
    (∀ w : String → String → String → String → HttpResponse MilestonesBody,
      syncData configurationId (some header) getUser { u with objectWhere := w } db now
        = syncData configurationId (some header) getUser u db now) := by
  have key : ∀ u2 : Upstream, u2.objectPath = u.objectPath →
      syncData configurationId (some header) getUser u2 db now =
        (Except.ok { studiesCount := 0, milestonesCount := 0
                     message := "Data synchronization completed successfully" },
         { db with configurations := (db.configurations.map
             (fun c => if c.id == configurationId then { c with last_sync := some now }
                       else c)) }) := by
    intro u2 hpath
    have h5b : respOk (syncStudiesBody u2 config session) = true := by
      simpa [syncStudiesBody, hpath] using h5
    have hdb : (syncStudiesBody u2 config session).body.data.getD [] = [] := by
      simpa [syncStudiesBody, hpath] using hdata
    rw [syncData_success_eq configurationId header userId getUser u2 db now config session
      h2 h3 h4 h5b]
    simp [syncStudyInserts, syncMilestoneInserts, syncFinalDb, hdb]
  refine ⟨key u rfl, fun w => ?_⟩
  rw [key { u with objectWhere := w } rfl, key u rfl]

/-- C9 witness: a concrete run whose studies response carries no data
array. -/
theorem empty_studies_data_sync_witness :
    ((fun _ : String => some "u1") (stripBearer "Bearer tok") = some "u1") ∧
    dbSample.configurations.filter (fun c => c.id == "c1" && c.user_id == "u1")
      = [cfgSample] ∧
    latestByCreatedAt (dbSample.sessions.filter (sessionFilter "c1" 100))
      = some sessSample ∧
    respOk (syncStudiesBody uEmpty cfgSample sessSample) = true ∧
    (syncStudiesBody uEmpty cfgSample sessSample).body.data.getD [] = [] ∧
    syncData "c1" (some "Bearer tok") (fun _ => some "u1") uEmpty dbSample 100 =
      (Except.ok { studiesCount := 0, milestonesCount := 0
                   message := "Data synchronization completed successfully" },
       { dbSample with configurations := (dbSample.configurations.map
           (fun c => if c.id == "c1" then { c with last_sync := some 100 } else c)) }) := by
  refine ⟨rfl, by decide, by decide, by decide, by decide, ?_⟩
  exact (empty_studies_data_sync "c1" "Bearer tok" "u1" (fun _ => some "u1") uEmpty
    dbSample 100 cfgSample sessSample rfl (by decide) (by decide) (by decide)
    (by decide)).1

/-- C2 counterexample: with the only session expiring exactly at the
current time (so no session expires strictly after now), the run does not
fail with the session-expired error: the source filters with gte on the
expiry, accepts the boundary session, and here completes successfully. -/
theorem session_expiry_boundary_counterexample :
    (∀ s ∈ dbExpiringNow.sessions, ¬(100 < s.expires_at)) ∧
    (syncData "c1" (some "Bearer tok") (fun _ => some "u1") uEmpty dbExpiringNow 100).1 =
      Except.ok { studiesCount := 0, milestonesCount := 0
                  message := "Data synchronization completed successfully" } ∧
    (syncData "c1" (some "Bearer tok") (fun _ => some "u1") uEmpty dbExpiringNow 100).1 ≠
      Except.error SyncError.noActiveSessionFound := by
  refine ⟨by decide, rfl, ?_⟩
  intro h
  rw [show (syncData "c1" (some "Bearer tok") (fun _ => some "u1") uEmpty
      dbExpiringNow 100).1 =
    Except.ok { studiesCount := 0, milestonesCount := 0
                message := "Data synchronization completed successfully" } from rfl] at h
  exact Except.noConfusion h

/-- C2 (amended): the session-resolution step selects, among the Sessions
of the configuration with active true and expiry at or after the current
time (the source uses gte, so a session expiring exactly now is still
accepted), the most recently created one; when no such session exists the
run fails with the session-expired error and the store is returned
unchanged, so no Study or Milestone upsert happens. -/
theorem session_resolution_amended (configurationId header userId : String)
    (getUser : String → Option String) (u : Upstream) (db : Db) (now : Nat)
    (config : ConfigRow)
    (h2 : getUser (stripBearer header) = some userId)
    (h3 : db.configurations.filter
      (fun c => c.id == configurationId && c.user_id == userId) = [config]) :
    (latestByCreatedAt (db.sessions.filter (sessionFilter configurationId now)) = none →
      syncData configurationId (some header) getUser u db now =
        (Except.error SyncError.noActiveSessionFound, db)) ∧
    (∀ s, latestByCreatedAt (db.sessions.filter (sessionFilter configurationId now))
        = some s →
      s ∈ db.sessions ∧ s.configuration_id = configurationId ∧ s.is_active = true ∧
      now ≤ s.expires_at ∧
      ∀ t ∈ db.sessions, t.configuration_id = configurationId → t.is_active = true →
        now ≤ t.expires_at → t.created_at ≤ s.created_at) := by
  constructor
  · intro h
    exact syncData_no_session_eq configurationId header userId getUser u db now config
      h2 h3 h
  · intro s hs
    have hmem := latestByCreatedAt_mem _ s hs
    have hmem2 := List.mem_filter.mp hmem
    have hp : s.configuration_id = configurationId ∧ s.is_active = true ∧
        now ≤ s.expires_at := by
      simpa [sessionFilter, Bool.and_eq_true, beq_iff_eq, decide_eq_true_eq,
        and_assoc] using hmem2.2
    refine ⟨hmem2.1, hp.1, hp.2.1, hp.2.2, ?_⟩
    intro t ht ht1 ht2 ht3
    apply latestByCreatedAt_max _ s hs
    exact List.mem_filter.mpr ⟨ht, by simp [sessionFilter, ht1, ht2, ht3]⟩

/-- C2 witness: the amended theorem applied to the sample store, whose
single valid session is resolved with its properties. -/
theorem session_resolution_amended_witness :
    ((fun _ : String => some "u1") (stripBearer "Bearer tok") = some "u1") ∧
    dbSample.configurations.filter (fun c => c.id == "c1" && c.user_id == "u1")
      = [cfgSample] ∧
    latestByCreatedAt (dbSample.sessions.filter (sessionFilter "c1" 100))
      = some sessSample ∧
    (sessSample ∈ dbSample.sessions ∧ sessSample.configuration_id = "c1" ∧
      sessSample.is_active = true ∧ 100 ≤ sessSample.expires_at ∧
      ∀ t ∈ dbSample.sessions, t.configuration_id = "c1" → t.is_active = true →
        100 ≤ t.expires_at → t.created_at ≤ sessSample.created_at) := by
  refine ⟨rfl, by decide, by decide, ?_⟩
  exact (session_resolution_amended "c1" "Bearer tok" "u1" (fun _ => some "u1") uSample
    dbSample 100 cfgSample rfl (by decide)).2 sessSample (by decide)

/-- C1: under the hard preconditions up to session resolution, the studies
step behaves exactly as the ordered-candidate endpoint resolver on the
fixed candidate list (the single candidate study__v): when the resolver
accepts a first candidate, its winning name is study__v, its parsed body
is the body the run uses, and the run completes successfully; when every
candidate fails the run fails with the failed-to-fetch-studies error and
the store is returned unchanged, so no Study rows are written; and the
diagnostic probe of the generic objects listing never influences the
outcome. -/
theorem study_endpoint_resolution (configurationId header userId : String)
    (getUser : String → Option String) (u : Upstream) (db : Db) (now : Nat)
    (config : ConfigRow) (session : SessionRow)
    (h2 : getUser (stripBearer header) = some userId)
    (h3 : db.configurations.filter
      (fun c => c.id == configurationId && c.user_id == userId) = [config])
    (h4 : latestByCreatedAt (db.sessions.filter (sessionFilter configurationId now))
      = some session) :
    (∀ name body,
        resolveStudyEndpointSpec u config.veeva_url session.session_id
          candidateStudyObjects = some (name, body) →
        name = "study__v" ∧ body = (syncStudiesBody u config session).body ∧
        respOk (syncStudiesBody u config session) = true ∧
        ∃ ok db2, syncData configurationId (some header) getUser u db now
          = (Except.ok ok, db2)) ∧
    (resolveStudyEndpointSpec u config.veeva_url session.session_id
        candidateStudyObjects = none →
      syncData configurationId (some header) getUser u db now =
        (Except.error (SyncError.failedToFetchStudies
          (syncStudiesBody u config session).status), db)) ∧
    (∀ g1 g2 : String → String → HttpResponse String,
      syncData configurationId (some header) getUser { u with objects := g1 } db now =
      syncData configurationId (some header) getUser { u with objects := g2 } db now) := by
  refine ⟨?_, ?_, ?_⟩
  · intro name body h
    by_cases hok : respOk (u.objectPath config.veeva_url session.session_id "study__v")
        = true
    · have hres : resolveStudyEndpointSpec u config.veeva_url session.session_id
          candidateStudyObjects
          = some ("study__v",
              (u.objectPath config.veeva_url session.session_id "study__v").body) := by
        simp [resolveStudyEndpointSpec, candidateStudyObjects, hok]
      rw [hres] at h
      have hpair := Option.some.inj h
      refine ⟨(congrArg Prod.fst hpair).symm, (congrArg Prod.snd hpair).symm, hok, ?_⟩
      exact ⟨_, _, syncData_success_eq configurationId header userId getUser u db now
        config session h2 h3 h4 hok⟩
    · have hres : resolveStudyEndpointSpec u config.veeva_url session.session_id
          candidateStudyObjects = none := by
        simp [resolveStudyEndpointSpec, candidateStudyObjects, hok]
      rw [hres] at h
      cases h
  · intro h
    by_cases hok : respOk (u.objectPath config.veeva_url session.session_id "study__v")
        = true
    · have hres : resolveStudyEndpointSpec u config.veeva_url session.session_id
          candidateStudyObjects
          = some ("study__v",
              (u.objectPath config.veeva_url session.session_id "study__v").body) := by
        simp [resolveStudyEndpointSpec, candidateStudyObjects, hok]
      rw [hres] at h
      cases h
    · have hok2 : respOk (syncStudiesBody u config session) = false := by
        simpa using hok
      exact syncData_endpoint_fail_eq configurationId header userId getUser u db now
        config session h2 h3 h4 hok2
  · intro g1 g2
    rfl

/-- C1 witness: the resolver refinement applied to the sample store and
upstream. -/
theorem study_endpoint_resolution_witness :
    ((fun _ : String => some "u1") (stripBearer "Bearer tok") = some "u1") ∧
    dbSample.configurations.filter (fun c => c.id == "c1" && c.user_id == "u1")
      = [cfgSample] ∧
    latestByCreatedAt (dbSample.sessions.filter (sessionFilter "c1" 100))
      = some sessSample ∧
    ((∀ name body,
        resolveStudyEndpointSpec uSample cfgSample.veeva_url sessSample.session_id
          candidateStudyObjects = some (name, body) →
        name = "study__v" ∧ body = (syncStudiesBody uSample cfgSample sessSample).body ∧
        respOk (syncStudiesBody uSample cfgSample sessSample) = true ∧
        ∃ ok db2, syncData "c1" (some "Bearer tok") (fun _ => some "u1") uSample
          dbSample 100 = (Except.ok ok, db2)) ∧
    (resolveStudyEndpointSpec uSample cfgSample.veeva_url sessSample.session_id
        candidateStudyObjects = none →
      syncData "c1" (some "Bearer tok") (fun _ => some "u1") uSample dbSample 100 =
        (Except.error (SyncError.failedToFetchStudies
          (syncStudiesBody uSample cfgSample sessSample).status), dbSample)) ∧
    (∀ g1 g2 : String → String → HttpResponse String,
      syncData "c1" (some "Bearer tok") (fun _ => some "u1")
        { uSample with objects := g1 } dbSample 100 =
      syncData "c1" (some "Bearer tok") (fun _ => some "u1")
        { uSample with objects := g2 } dbSample 100)) := by
  refine ⟨rfl, by decide, by decide, ?_⟩
  exact study_endpoint_resolution "c1" "Bearer tok" "u1" (fun _ => some "u1") uSample
    dbSample 100 cfgSample sessSample rfl (by decide) (by decide)

/-- C8 counterexample: two configurations of the same owner share URL and
username (reachable, since the setup form only rejects duplicates of the
full environment, URL, username triple).  A matching configuration exists,
yet authenticate fails with the configuration-not-found error and persists
no Session, because the single-row lookup errors on more than one match;
this contradicts failing only when none exists and persisting a Session
otherwise. -/
theorem authenticate_duplicate_config_counterexample :
    (dbDup.configurations.filter (authConfigFilter "u1" authBodySample)).length = 2 ∧
    (authenticate authBodySample (some "h") (fun _ => some "u1") postOk dbDup 50).1 =
      Except.error AuthError.configurationNotFound ∧
    (authenticate authBodySample (some "h") (fun _ => some "u1") postOk dbDup 50).2.1 =
      dbDup := by
  exact ⟨by decide, rfl, by decide⟩

/-- C8 (amended): on a successful upstream credential exchange (success
status and a session id in the body) with a valid caller, authenticate
resolves the configuration by owner, URL and username requiring a unique
match: with no unique match (none, or several) it fails with the
configuration-not-found error leaving the store unchanged; with exactly
one match it appends exactly one new Session whose expiry is 8 hours
after issuance and marks that configuration active (also touching its
last-sync time). -/
theorem authenticate_session_persistence (body : AuthBody) (header userId sid : String)
    (getUser : String → Option String)
    (post : String → String → String → HttpResponse AuthRespBody)
    (db : Db) (now : Nat)
    (h1 : respOk (post (body.veevaUrl ++ "/api/v1/auth") body.username body.password)
      = true)
    (h2 : (post (body.veevaUrl ++ "/api/v1/auth") body.username body.password).body.sessionId
      = some sid)
    (h3 : getUser (stripBearer header) = some userId) :
    ((¬ ∃ config, db.configurations.filter (authConfigFilter userId body) = [config]) →
      authenticate body (some header) getUser post db now =
        (Except.error AuthError.configurationNotFound, db,
         [{ url := body.veevaUrl ++ "/api/v1/auth", username := body.username
            password := body.password }])) ∧
    (∀ config, db.configurations.filter (authConfigFilter userId body) = [config] →
      authenticate body (some header) getUser post db now =
        (Except.ok { sessionId := sid, expiresAt := now + eightHoursMs
                     message := "Successfully authenticated with Veeva CTMS" },
         { db with
           sessions := db.sessions ++
             [{ configuration_id := config.id, session_id := sid
                expires_at := now + eightHoursMs, is_active := true, created_at := now }]
           configurations := (db.configurations.map
             (fun c => if c.id == config.id then
                 { c with is_active := true, last_sync := some now }
               else c)) },
         [{ url := body.veevaUrl ++ "/api/v1/auth", username := body.username
            password := body.password }])) := by
  constructor
  · intro hno
    rcases hshape : db.configurations.filter (authConfigFilter userId body) with
      _ | ⟨c, _ | ⟨c2, rest⟩⟩
    · simp [authenticate, h1, h2, h3, hshape]
    · exact absurd ⟨c, hshape⟩ hno
    · simp [authenticate, h1, h2, h3, hshape]
  · intro config hC
    simp [authenticate, h1, h2, h3, hC]

/-- C8 witness: the amended theorem applied to a store holding exactly one
matching configuration. -/
theorem authenticate_session_persistence_witness :
    respOk (postOk (authBodySample.veevaUrl ++ "/api/v1/auth") authBodySample.username
      authBodySample.password) = true ∧
    (postOk (authBodySample.veevaUrl ++ "/api/v1/auth") authBodySample.username
      authBodySample.password).body.sessionId = some "sid9" ∧
    ((fun _ : String => some "u1") (stripBearer "h") = some "u1") ∧
    dbSample.configurations.filter (authConfigFilter "u1" authBodySample) = [cfgSample] ∧
    authenticate authBodySample (some "h") (fun _ => some "u1") postOk dbSample 50 =
      (Except.ok { sessionId := "sid9", expiresAt := 50 + eightHoursMs
                   message := "Successfully authenticated with Veeva CTMS" },
       { dbSample with
         sessions := dbSample.sessions ++
           [{ configuration_id := cfgSample.id, session_id := "sid9"
              expires_at := 50 + eightHoursMs, is_active := true, created_at := 50 }]
         configurations := (dbSample.configurations.map
           (fun c => if c.id == cfgSample.id then
               { c with is_active := true, last_sync := some 50 }
             else c)) },
       [{ url := authBodySample.veevaUrl ++ "/api/v1/auth"
          username := authBodySample.username, password := authBodySample.password }]) := by
  refine ⟨by decide, rfl, rfl, by decide, ?_⟩
  exact (authenticate_session_persistence authBodySample "h" "u1" "sid9"
    (fun _ => some "u1") postOk dbSample 50 (by decide) rfl rfl).2 cfgSample (by decide)

/-- C10: authenticate performs the upstream credential POST before
validating the caller bearer credential: for a request with a missing
Authorization header, or one whose token does not resolve to a user, the
supplied username and password are still sent to the external system
(exactly one outbound credential POST is recorded), and the request then
fails with no Session row inserted and no Configuration row updated. -/
theorem authenticate_posts_before_bearer_check (body : AuthBody)
    (getUser : String → Option String)
    (post : String → String → String → HttpResponse AuthRespBody)
    (db : Db) (now : Nat) :
    ((authenticate body none getUser post db now).2.2 =
        [{ url := body.veevaUrl ++ "/api/v1/auth", username := body.username
           password := body.password }] ∧
      (authenticate body none getUser post db now).2.1 = db ∧
      ∃ e, (authenticate body none getUser post db now).1 = Except.error e) ∧
    (∀ header, getUser (stripBearer header) = none →
      (authenticate body (some header) getUser post db now).2.2 =
        [{ url := body.veevaUrl ++ "/api/v1/auth", username := body.username
           password := body.password }] ∧
      (authenticate body (some header) getUser post db now).2.1 = db ∧
      ∃ e, (authenticate body (some header) getUser post db now).1 = Except.error e) := by
  constructor
  · by_cases h1 : respOk (post (body.veevaUrl ++ "/api/v1/auth") body.username
        body.password) = true
    · cases h2 : (post (body.veevaUrl ++ "/api/v1/auth") body.username
          body.password).body.sessionId with
      | none => simp [authenticate, h1, h2]
      | some sid => simp [authenticate, h1, h2]
    · simp [authenticate, h1]
  · intro header hU
    by_cases h1 : respOk (post (body.veevaUrl ++ "/api/v1/auth") body.username
        body.password) = true
    · cases h2 : (post (body.veevaUrl ++ "/api/v1/auth") body.username
          body.password).body.sessionId with
      | none => simp [authenticate, h1, h2]
      | some sid => simp [authenticate, h1, h2, hU]
    · simp [authenticate, h1]

/-- C10 witness: a concrete request with a missing header, and one with an
unresolvable token, both still record the outbound credential POST and
leave the store unchanged. -/
theorem authenticate_posts_before_bearer_check_witness :
    ((authenticate authBodySample none (fun _ => none) postOk dbSample 50).2.2 =
        [{ url := authBodySample.veevaUrl ++ "/api/v1/auth"
           username := authBodySample.username, password := authBodySample.password }] ∧
      (authenticate authBodySample none (fun _ => none) postOk dbSample 50).2.1 =
        dbSample ∧
      ∃ e, (authenticate authBodySample none (fun _ => none) postOk dbSample 50).1 =
        Except.error e) ∧
    ((fun _ : String => (none : Option String)) (stripBearer "h") = none) ∧
    ((authenticate authBodySample (some "h") (fun _ => none) postOk dbSample 50).2.2 =
        [{ url := authBodySample.veevaUrl ++ "/api/v1/auth"
           username := authBodySample.username, password := authBodySample.password }] ∧
      (authenticate authBodySample (some "h") (fun _ => none) postOk dbSample 50).2.1 =
        dbSample ∧
      ∃ e, (authenticate authBodySample (some "h") (fun _ => none) postOk dbSample 50).1 =
        Except.error e) := by
  refine ⟨?_, rfl, ?_⟩
  · exact (authenticate_posts_before_bearer_check authBodySample (fun _ => none) postOk
      dbSample 50).1
  · exact (authenticate_posts_before_bearer_check authBodySample (fun _ => none) postOk
      dbSample 50).2 "h" rfl

/-! # Lemmas about configuration activation -/

theorem selectConfiguration_ids (userId configurationId : String) (db : Db) :
    (selectConfiguration userId configurationId db).configurations.map (fun c => c.id)
      = db.configurations.map (fun c => c.id) := by
  unfold selectConfiguration
  simp only [List.map_map]
  refine List.map_congr_left (fun c _ => ?_)
  by_cases h1 : (c.user_id == userId) = true <;>
    by_cases h2 : (c.id == configurationId) = true <;>
      simp [Function.comp, h1, h2]

theorem activeCountFor_selectConfiguration_other (userId configurationId other : String)
    (db : Db) (hne : other ≠ userId) :
    activeCountFor other (selectConfiguration userId configurationId db)
      = activeCountFor other db := by
  unfold activeCountFor selectConfiguration
  simp only [List.countP_map]
  have hfe :
      ((fun c : ConfigRow => c.user_id == other && c.is_active) ∘
        (fun c : ConfigRow =>
          if c.id == configurationId && c.user_id == userId then
            { c with is_active := true }
          else c)) ∘
        (fun c : ConfigRow =>
          if c.user_id == userId then { c with is_active := false } else c)
      = fun c : ConfigRow => c.user_id == other && c.is_active := by
    funext c
    by_cases h1 : (c.user_id == userId) = true
    · have he : c.user_id = userId := beq_iff_eq.mp h1
      have hno : (c.user_id == other) = false := by
        rw [he]
        exact beq_eq_false_iff_ne.mpr (fun h => hne h.symm)
      by_cases h2 : (c.id == configurationId) = true <;>
        simp [Function.comp, h1, h2, hno]
    · by_cases h2 : (c.id == configurationId) = true <;>
        simp [Function.comp, h1, h2]
  rw [hfe]

theorem activeCountFor_selectConfiguration_self (userId configurationId : String)
    (db : Db) (hids : configIdsNodup db) :
    activeCountFor userId (selectConfiguration userId configurationId db) ≤ 1 := by
  unfold activeCountFor selectConfiguration
  simp only [List.countP_map]
  refine Nat.le_trans
    (List.countP_mono_left (q := fun c : ConfigRow => c.id == configurationId)
      (fun c _ hc => ?_)) ?_
  · by_cases h1 : (c.user_id == userId) = true
    · by_cases h2 : (c.id == configurationId) = true
      · exact h2
      · simp [Function.comp, h1, h2] at hc
    · simp [Function.comp, h1] at hc
  · have hcount := List.nodup_iff_count_le_one.mp hids configurationId
    have hc2 : (db.configurations.map (fun c => c.id)).countP
        (fun x => x == configurationId) ≤ 1 := hcount
    rw [List.countP_map] at hc2
    exact hc2

theorem selectConfiguration_preserves_ids (userId configurationId : String) (db : Db)
    (hids : configIdsNodup db) :
    configIdsNodup (selectConfiguration userId configurationId db) := by
  unfold configIdsNodup
  rw [selectConfiguration_ids]
  exact hids

theorem selectConfiguration_preserves_invariant (userId configurationId : String)
    (db : Db) (hids : configIdsNodup db) (hinv : atMostOneActivePerOwner db) :
    atMostOneActivePerOwner (selectConfiguration userId configurationId db) := by
  intro other
  by_cases h : other = userId
  · rw [h]
    exact activeCountFor_selectConfiguration_self userId configurationId db hids
  · rw [activeCountFor_selectConfiguration_other userId configurationId other db h]
    exact hinv other

/-- C3 counterexample: from a well-formed store with two inactive
configurations of one owner, activating the first and then authenticating
against the second leaves both active: the authenticate handler activates
its matched configuration without deactivating the others, so the
invariant fails for sequences containing authenticate. -/
theorem activation_invariant_counterexample :
    configIdsNodup dbSel ∧
    (∀ userId, activeCountFor userId dbSel = 0) ∧
    activeCountFor "u1" (runConfigOps dbSel opsBreakInvariant) = 2 ∧
    ¬ activeCountFor "u1" (runConfigOps dbSel opsBreakInvariant) ≤ 1 := by
  refine ⟨by unfold configIdsNodup; decide, ?_, by decide, by decide⟩
  intro userId
  simp [activeCountFor, dbSel, cfgSelA, cfgSelB]

/-- C3 (amended): the activate operation (deactivate all configurations of
the owner, then activate the selected one) preserves the at-most-one-active
invariant, so after any sequence of activate operations from a well-formed
store the invariant holds; the authenticate operation is excluded because
it activates its matched configuration without deactivating the others. -/
theorem select_sequences_single_active (ops : List ConfigOp) (db : Db)
    (hids : configIdsNodup db) (hinv : atMostOneActivePerOwner db)
    (hops : ∀ op ∈ ops, ∃ userId configurationId,
      op = ConfigOp.select userId configurationId) :
    atMostOneActivePerOwner (runConfigOps db ops) := by
  induction ops generalizing db with
  | nil => exact hinv
  | cons op rest ih =>
    obtain ⟨userId, configurationId, rfl⟩ := hops op (by simp)
    exact ih (selectConfiguration userId configurationId db)
      (selectConfiguration_preserves_ids userId configurationId db hids)
      (selectConfiguration_preserves_invariant userId configurationId db hids hinv)
      (fun o ho => hops o (List.mem_cons_of_mem _ ho))

/-- C3 witness: the amended theorem applied to a concrete activate
sequence. -/
theorem select_sequences_single_active_witness :
    configIdsNodup dbSel ∧ atMostOneActivePerOwner dbSel ∧
    (∀ op ∈ [ConfigOp.select "u1" "a"], ∃ userId configurationId,
      op = ConfigOp.select userId configurationId) ∧
    atMostOneActivePerOwner (runConfigOps dbSel [ConfigOp.select "u1" "a"]) := by
  have h0 : configIdsNodup dbSel := by unfold configIdsNodup; decide
  have h1 : atMostOneActivePerOwner dbSel := by
    intro userId
    simp [activeCountFor, dbSel, cfgSelA, cfgSelB]
  have h2 : ∀ op ∈ [ConfigOp.select "u1" "a"], ∃ userId configurationId,
      op = ConfigOp.select userId configurationId := by
    intro op hop
    rw [List.mem_singleton] at hop
    exact ⟨"u1", "a", hop⟩
  exact ⟨h0, h1, h2, select_sequences_single_active _ dbSel h0 h1 h2⟩

/-! # Lemmas about the write phase of a successful run -/

theorem syncFinalDb_configurations (configurationId : String) (now : Nat) (db : Db)
    (a : List StudyRow) (b : List MilestoneRow) :
    (syncFinalDb configurationId now db a b).configurations
      = db.configurations.map
          (fun c => if c.id == configurationId then { c with last_sync := some now }
                    else c) := by
  unfold syncFinalDb
  by_cases h1 : a.length > 0 <;> by_cases h2 : b.length > 0 <;> simp [h1, h2]

theorem syncFinalDb_sessions (configurationId : String) (now : Nat) (db : Db)
    (a : List StudyRow) (b : List MilestoneRow) :
    (syncFinalDb configurationId now db a b).sessions = db.sessions := by
  unfold syncFinalDb
  by_cases h1 : a.length > 0 <;> by_cases h2 : b.length > 0 <;> simp [h1, h2]

theorem syncFinalDb_study_data (configurationId : String) (now : Nat) (db : Db)
    (a : List StudyRow) (b : List MilestoneRow) :
    (syncFinalDb configurationId now db a b).study_data
      = (if a.length > 0 then upsertBy studyKey db.study_data a else db.study_data) := by
  unfold syncFinalDb
  by_cases h1 : a.length > 0 <;> by_cases h2 : b.length > 0 <;> simp [h1, h2]

theorem syncFinalDb_milestone_data (configurationId : String) (now : Nat) (db : Db)
    (a : List StudyRow) (b : List MilestoneRow) :
    (syncFinalDb configurationId now db a b).milestone_data
      = (if b.length > 0 then upsertBy milestoneKey db.milestone_data b
         else db.milestone_data) := by
  unfold syncFinalDb
  by_cases h1 : a.length > 0 <;> by_cases h2 : b.length > 0 <;> simp [h1, h2]

theorem filter_config_touch (l : List ConfigRow) (configurationId userId : String)
    (now : Nat) :
    (l.map (fun c => if c.id == configurationId then { c with last_sync := some now }
        else c)).filter (fun c => c.id == configurationId && c.user_id == userId)
    = (l.filter (fun c => c.id == configurationId && c.user_id == userId)).map
        (fun c => if c.id == configurationId then { c with last_sync := some now }
                  else c) := by
  induction l with
  | nil => rfl
  | cons c rest ih =>
    by_cases h1 : c.id = configurationId <;>
      by_cases h2 : c.user_id = userId <;>
        simpa [h1, h2] using ih

theorem syncData_cases (configurationId : String) (authHeader : Option String)
    (getUser : String → Option String) (u : Upstream) (db : Db) (now : Nat) :
    (syncData configurationId authHeader getUser u db now).2 = db ∨
    ∃ header userId config session,
      authHeader = some header ∧
      getUser (stripBearer header) = some userId ∧
      db.configurations.filter
        (fun c => c.id == configurationId && c.user_id == userId) = [config] ∧
      latestByCreatedAt (db.sessions.filter (sessionFilter configurationId now))
        = some session ∧
      respOk (syncStudiesBody u config session) = true := by
  cases authHeader with
  | none => left; rfl
  | some header =>
    cases hU : getUser (stripBearer header) with
    | none => left; simp [syncData, hU]
    | some userId =>
      rcases hC : db.configurations.filter
          (fun c => c.id == configurationId && c.user_id == userId) with
        _ | ⟨c, _ | ⟨c2, rest⟩⟩
      · left; simp [syncData, hU, hC]
      · cases hS : latestByCreatedAt
            (db.sessions.filter (sessionFilter configurationId now)) with
        | none =>
          left
          rw [syncData_no_session_eq configurationId header userId getUser u db now c
            hU hC hS]
        | some session =>
          by_cases hok : respOk (syncStudiesBody u c session) = true
          · right; exact ⟨header, userId, c, session, rfl, hU, hC, rfl, hok⟩
          · left
            have hok2 : respOk (syncStudiesBody u c session) = false := by
              simpa using hok
            rw [syncData_endpoint_fail_eq configurationId header userId getUser u db now
              c session hU hC hS hok2]
      · left; simp [syncData, hU, hC]

/-- C6: invoking the sync twice with the same inputs (same upstream data
and clock) leaves the Study and Milestone tables of the second run equal
to those of the first, and when the initial tables have pairwise distinct
upsert keys, the tables after a run still do: the upserts are keyed
replace-on-conflict by (configuration, study id) for Study rows and
(configuration, study id, site id, title) for Milestone rows, so the
second pass rewrites rows in place and appends nothing. -/
theorem sync_twice_idempotent (configurationId : String) (authHeader : Option String)
    (getUser : String → Option String) (u : Upstream) (db : Db) (now : Nat)
    (hs : nodupKeys studyKey db.study_data)
    (hm : nodupKeys milestoneKey db.milestone_data) :
    (syncData configurationId authHeader getUser u
        (syncData configurationId authHeader getUser u db now).2 now).2.study_data
      = (syncData configurationId authHeader getUser u db now).2.study_data ∧
    (syncData configurationId authHeader getUser u
        (syncData configurationId authHeader getUser u db now).2 now).2.milestone_data
      = (syncData configurationId authHeader getUser u db now).2.milestone_data ∧
    nodupKeys studyKey
      (syncData configurationId authHeader getUser u db now).2.study_data ∧
    nodupKeys milestoneKey
      (syncData configurationId authHeader getUser u db now).2.milestone_data := by
  rcases syncData_cases configurationId authHeader getUser u db now with hflat |
    ⟨header, userId, config, session, rfl, hU, hC, hS, hok⟩
  · simp only [hflat]
    exact ⟨trivial, trivial, hs, hm⟩
  · have heq1 := syncData_success_eq configurationId header userId getUser u db now
      config session hU hC hS hok
    have hcid1 : (config.id == configurationId) = true := by
      have hmem : config ∈ db.configurations.filter
          (fun c => c.id == configurationId && c.user_id == userId) := by
        rw [hC]; exact List.mem_singleton_self config
      have h := (List.mem_filter.mp hmem).2
      simp only [Bool.and_eq_true] at h
      exact h.1
    have r1snd : (syncData configurationId (some header) getUser u db now).2
        = syncFinalDb configurationId now db
            (syncStudyInserts configurationId now (syncStudiesBody u config session).body)
            (syncMilestoneInserts u config session configurationId now
              (syncStudiesBody u config session).body) :=
      congrArg Prod.snd heq1
    have hC2 : (syncFinalDb configurationId now db
          (syncStudyInserts configurationId now (syncStudiesBody u config session).body)
          (syncMilestoneInserts u config session configurationId now
            (syncStudiesBody u config session).body)).configurations.filter
          (fun c => c.id == configurationId && c.user_id == userId)
        = [{ config with last_sync := some now }] := by
      rw [syncFinalDb_configurations, filter_config_touch, hC]
      simp [hcid1]
      intro h
      exact absurd (beq_iff_eq.mp hcid1) h
    have hS2 : latestByCreatedAt ((syncFinalDb configurationId now db
          (syncStudyInserts configurationId now (syncStudiesBody u config session).body)
          (syncMilestoneInserts u config session configurationId now
            (syncStudiesBody u config session).body)).sessions.filter
          (sessionFilter configurationId now)) = some session := by
      rw [syncFinalDb_sessions]; exact hS
    have hok2 : respOk (syncStudiesBody u { config with last_sync := some now } session)
        = true := hok
    have heq2 := syncData_success_eq configurationId header userId getUser u
      (syncFinalDb configurationId now db
        (syncStudyInserts configurationId now (syncStudiesBody u config session).body)
        (syncMilestoneInserts u config session configurationId now
          (syncStudiesBody u config session).body)) now
      { config with last_sync := some now } session hU hC2 hS2 hok2
    have r2snd : (syncData configurationId (some header) getUser u
          (syncFinalDb configurationId now db
            (syncStudyInserts configurationId now (syncStudiesBody u config session).body)
            (syncMilestoneInserts u config session configurationId now
              (syncStudiesBody u config session).body)) now).2
        = syncFinalDb configurationId now
            (syncFinalDb configurationId now db
              (syncStudyInserts configurationId now
                (syncStudiesBody u config session).body)
              (syncMilestoneInserts u config session configurationId now
                (syncStudiesBody u config session).body))
            (syncStudyInserts configurationId now (syncStudiesBody u config session).body)
            (syncMilestoneInserts u config session configurationId now
              (syncStudiesBody u config session).body) :=
      congrArg Prod.snd heq2
    rw [r1snd, r2snd, syncFinalDb_study_data, syncFinalDb_study_data,
      syncFinalDb_milestone_data, syncFinalDb_milestone_data]
    refine ⟨?_, ?_, ?_, ?_⟩
    · by_cases hlen : (syncStudyInserts configurationId now
          (syncStudiesBody u config session).body).length > 0
      · simp only [hlen, if_true]
        exact upsertBy_idempotent studyKey db.study_data _
      · simp only [hlen, if_false]
    · by_cases hlen : (syncMilestoneInserts u config session configurationId now
          (syncStudiesBody u config session).body).length > 0
      · simp only [hlen, if_true]
        exact upsertBy_idempotent milestoneKey db.milestone_data _
      · simp only [hlen, if_false]
    · by_cases hlen : (syncStudyInserts configurationId now
          (syncStudiesBody u config session).body).length > 0
      · simp only [hlen, if_true]
        exact nodupKeys_upsertBy studyKey _ db.study_data hs
      · simp only [hlen, if_false]
        exact hs
    · by_cases hlen : (syncMilestoneInserts u config session configurationId now
          (syncStudiesBody u config session).body).length > 0
      · simp only [hlen, if_true]
        exact nodupKeys_upsertBy milestoneKey _ db.milestone_data hm
      · simp only [hlen, if_false]
        exact hm

/-- C6 witness: two successive runs over the sample store and upstream
leave identical Study and Milestone tables with pairwise distinct keys. -/
theorem sync_twice_idempotent_witness :
    nodupKeys studyKey dbSample.study_data ∧
    nodupKeys milestoneKey dbSample.milestone_data ∧
    ((syncData "c1" (some "Bearer tok") (fun _ => some "u1") uSample
        (syncData "c1" (some "Bearer tok") (fun _ => some "u1") uSample dbSample
          100).2 100).2.study_data
      = (syncData "c1" (some "Bearer tok") (fun _ => some "u1") uSample dbSample
          100).2.study_data ∧
    (syncData "c1" (some "Bearer tok") (fun _ => some "u1") uSample
        (syncData "c1" (some "Bearer tok") (fun _ => some "u1") uSample dbSample
          100).2 100).2.milestone_data
      = (syncData "c1" (some "Bearer tok") (fun _ => some "u1") uSample dbSample
          100).2.milestone_data ∧
    nodupKeys studyKey
      (syncData "c1" (some "Bearer tok") (fun _ => some "u1") uSample dbSample
        100).2.study_data ∧
    nodupKeys milestoneKey
      (syncData "c1" (some "Bearer tok") (fun _ => some "u1") uSample dbSample
        100).2.milestone_data) := by
  have hs : nodupKeys studyKey dbSample.study_data := by
    unfold nodupKeys
    decide
  have hm : nodupKeys milestoneKey dbSample.milestone_data := by
    unfold nodupKeys
    decide
  exact ⟨hs, hm, sync_twice_idempotent "c1" (some "Bearer tok") (fun _ => some "u1")
    uSample dbSample 100 hs hm⟩

end VeevaConnectHub
